import Mathlib

/-!
Verification development for the Kickstarter analytics dashboard
(`src/kickstarter_dashboard.py`).  The script loads a table of campaign
records, derives `year`/`month` from the `launched` timestamp
(`pd.to_datetime(..., errors='coerce')`, so unparsable timestamps give null
year/month), filters by sidebar selections, and computes summary statistics.

The embedding models a row as `Record`, the table as a list of records in
source order, missing numeric cells as `none`, and each statistic of the
script as a Lean function translated line by line from the source.
-/

namespace KS

/-- One row of the dataset after the preprocessing block (lines 93–97 of
`kickstarter_dashboard.py`): `year`/`month` are `none` exactly when
`pd.to_datetime(kt_df['launched'], errors='coerce')` produced `NaT`;
numeric cells that are missing in the CSV are `none` (pandas `NaN`). -/
structure Record where
  main_category : String
  state : String
  country : String
  year : Option Nat
  month : Option Nat
  goal : Option ℚ
  pledged : Option ℚ
  backers : Option ℚ
  deriving DecidableEq

/-- The sidebar multiselect selections (lines 110–132): `selected_years`,
`selected_categories`, `selected_states`.  An empty list is what Streamlit
returns when the user deselects everything in that widget. -/
structure FilterSpec where
  years : List Nat
  categories : List String
  states : List String
  deriving DecidableEq

abbrev Table := List Record

/-- `kt_df['year'].isin(selected_years)` for one row (line 136): pandas
`isin` is `False` on a `NaN` cell, and the guard `if selected_years` makes an
empty selection unrestrictive. -/
def passYear (spec : FilterSpec) (r : Record) : Bool :=
  spec.years.isEmpty ||
    (match r.year with
     | some y => spec.years.contains y
     | none => false)

/-- `kt_df['main_category'].isin(selected_categories)` with the empty-guard
(line 137). -/
def passCategory (spec : FilterSpec) (r : Record) : Bool :=
  spec.categories.isEmpty || spec.categories.contains r.main_category

/-- `kt_df['state'].isin(selected_states)` with the empty-guard (line 138). -/
def passState (spec : FilterSpec) (r : Record) : Bool :=
  spec.states.isEmpty || spec.states.contains r.state

/-- The conjunction of the three masks of lines 135–139. -/
def rowPass (spec : FilterSpec) (r : Record) : Bool :=
  passYear spec r && passCategory spec r && passState spec r

/-- Lines 135–139:
`filtered_df = kt_df[(mask_year if selected_years else True) & ... ]`.
When at least one selection is non-empty the scalar `True`s broadcast
against the boolean Series and the result is the AND of the active masks,
in source row order.  When all three selections are empty every factor is
the Python scalar `True`, so the expression is `kt_df[True]` — a column
lookup with the key `True`, which raises `KeyError` (no such column). -/
def filtered_df (T : Table) (spec : FilterSpec) : Except String Table :=
  if spec.years.isEmpty && spec.categories.isEmpty && spec.states.isEmpty then
    Except.error "KeyError: True"
  else
    Except.ok (T.filter (fun r => rowPass spec r))

/-- pandas `Series.sum()` over a numeric column: missing cells are skipped
(`skipna=True` default), an all-missing or empty column sums to `0`. -/
def sumOpt (l : List (Option ℚ)) : ℚ := (l.filterMap id).sum

/-- Line 103: `total_pledged = kt_df['pledged'].sum()`. -/
def total_pledged (T : Table) : ℚ := sumOpt (T.map (fun r => r.pledged))

/-- Line 104: `total_goal = kt_df['goal'].sum()`. -/
def total_goal (T : Table) : ℚ := sumOpt (T.map (fun r => r.goal))

/-- Line 105:
`funding_ratio = (total_pledged / total_goal) * 100 if total_goal > 0 else 0`. -/
def funding_ratio (T : Table) : ℚ :=
  if 0 < total_goal T then total_pledged T / total_goal T * 100 else 0

/-- The funding-ratio value the dashboard reports while the filter state is
`spec`: lines 103–105 compute `funding_ratio` from `kt_df` — the full table,
before and independently of the sidebar selections — and the metric card at
line 176 displays exactly that value.  `filtered_df` never feeds it, so the
reported value does not depend on `spec`. -/
def reported_funding_ratio (T : Table) (_spec : FilterSpec) : ℚ :=
  funding_ratio T

/-- The success-rate lambda used at lines 100, 199–201, 274–276, 315–317 and
436–438: `(x == 'successful').mean() * 100` over a series of states.  pandas
`mean()` of an empty series is `NaN`, modelled as `none`. -/
def successRate (l : List String) : Option ℚ :=
  if l.isEmpty then none
  else some (((l.countP (fun s => s == "successful") : ℕ) : ℚ) / l.length * 100)

/-- Insertion step of a stable insertion sort with respect to a boolean
"comes no later than" test `le`; used to model the deterministic sorts that
pandas applies (`sort_index`, `value_counts`' descending count order,
`groupby`'s ascending key order). -/
def insertLe {α : Type} (le : α → α → Bool) (x : α) : List α → List α
  | [] => [x]
  | y :: ys => if le x y then x :: y :: ys else y :: insertLe le x ys

/-- Insertion sort by `le`. -/
def sortLe {α : Type} (le : α → α → Bool) (l : List α) : List α :=
  l.foldr (insertLe le) []

theorem insertLe_perm {α : Type} (le : α → α → Bool) (x : α) (l : List α) :
    List.Perm (insertLe le x l) (x :: l) := by
  induction l with
  | nil => exact List.Perm.refl _
  | cons y ys ih =>
    rw [insertLe]
    by_cases h : le x y = true
    · rw [if_pos h]
    · rw [if_neg h]
      exact List.Perm.trans (List.Perm.cons y ih) (List.Perm.swap x y ys)

theorem sortLe_perm {α : Type} (le : α → α → Bool) (l : List α) :
    List.Perm (sortLe le l) l := by
  induction l with
  | nil => exact List.Perm.refl _
  | cons y ys ih =>
    exact List.Perm.trans (insertLe_perm le y (sortLe le ys)) (List.Perm.cons y ih)

theorem mem_sortLe {α : Type} (le : α → α → Bool) (l : List α) (a : α) :
    a ∈ sortLe le l ↔ a ∈ l :=
  (sortLe_perm le l).mem_iff

/-- pandas `Series.value_counts()` (used at lines 228, 256, 297, 419): one
entry per distinct value in order of first appearance, paired with its
multiplicity, then sorted by count descending.  `NaN` values never reach
this function — callers on nullable columns pass the non-null values only,
because `value_counts` drops `NaN` by default (`dropna=True`). -/
def valueCounts {α : Type} [DecidableEq α] (l : List α) : List (α × ℕ) :=
  sortLe (fun a b => b.2 ≤ a.2) (l.dedup.map (fun x => (x, l.count x)))

/-- `.sort_index()` on a natural-number-keyed count series (lines 256, 297). -/
def sortIndexNat (g : List (ℕ × ℕ)) : List (ℕ × ℕ) :=
  sortLe (fun a b => a.1 ≤ b.1) g

/-- Line 228: `state_counts = filtered_df['state'].value_counts()`. -/
def state_counts (T : Table) : List (String × ℕ) :=
  valueCounts (T.map (fun r => r.state))

/-- Line 256: `projects_per_year = filtered_df['year'].value_counts().sort_index()`;
`value_counts` drops the `NaN` years, hence the `filterMap`. -/
def projects_per_year (T : Table) : List (ℕ × ℕ) :=
  sortIndexNat (valueCounts (T.filterMap (fun r => r.year)))

/-- Line 297: `projects_per_month = filtered_df['month'].value_counts().sort_index()`. -/
def projects_per_month (T : Table) : List (ℕ × ℕ) :=
  sortIndexNat (valueCounts (T.filterMap (fun r => r.month)))

/-- The sum of the per-key counts of a count series. -/
def sumCounts {α : Type} (g : List (α × ℕ)) : ℕ := (g.map Prod.snd).sum

theorem sumCounts_sortLe {α : Type} (le : α × ℕ → α × ℕ → Bool) (g : List (α × ℕ)) :
    sumCounts (sortLe le g) = sumCounts g :=
  List.Perm.sum_eq ((sortLe_perm le g).map Prod.snd)

theorem sumCounts_valueCounts {α : Type} [DecidableEq α] (l : List α) :
    sumCounts (valueCounts l) = l.length := by
  rw [valueCounts, sumCounts_sortLe, sumCounts, List.map_map]
  have h : (Prod.snd ∘ fun x => (x, l.count x)) = fun x => l.count x := rfl
  rw [h]
  exact List.sum_map_count_dedup_eq_length l

/-- `groupby` key extraction on a nullable integer column: pandas `groupby`
drops `NaN` keys (`dropna=True` default) and sorts the remaining distinct
keys ascending (`sort=True` default). -/
def groupbyKeys (f : Record → Option ℕ) (T : Table) : List ℕ :=
  sortLe (fun a b => a ≤ b) (T.filterMap f).dedup

/-- `filtered_df.groupby(col)['state'].apply(lambda x: (x == 'successful').mean() * 100)`
for a nullable integer grouping column: an ordered mapping from each present
key to the success rate of its (necessarily non-empty) group.  Keys with no
members simply do not appear — `groupby` produces no entry for them. -/
def groupSuccess (f : Record → Option ℕ) (T : Table) : List (ℕ × Option ℚ) :=
  (groupbyKeys f T).map
    (fun k => (k, successRate ((T.filter (fun r => f r == some k)).map (fun r => r.state))))

/-- Lines 274–276: `yearly_success`. -/
def yearly_success (T : Table) : List (ℕ × Option ℚ) :=
  groupSuccess (fun r => r.year) T

/-- Lines 315–317: `monthly_success`. -/
def monthly_success (T : Table) : List (ℕ × Option ℚ) :=
  groupSuccess (fun r => r.month) T

/-- Line 320: `monthly_success.reindex(range(1, 13), fill_value=0)` — the
y-series handed to the monthly success-rate bar chart.  Months absent from
the grouped result are filled with the number `0`. -/
def reindexMonthsFill0 (g : List (ℕ × Option ℚ)) : List (ℕ × ℚ) :=
  ((List.range 13).drop 1).map
    (fun m => (m, match g.lookup m with
                  | some (some v) => v
                  | _ => 0))

/-- Pairwise deletion used by `DataFrame.corr()` (line 522): for one pair of
columns, keep the rows where both cells are present. -/
def jointPairs (xs ys : List (Option ℚ)) : List (ℚ × ℚ) :=
  (xs.zip ys).filterMap
    (fun p => match p with
              | (some a, some b) => some (a, b)
              | _ => none)

/-- Centered second moment of the first coordinates:
`sxx = Σ (x - mean x)^2` over the jointly observed pairs. -/
def sxxOf (ps : List (ℚ × ℚ)) : ℚ :=
  ((ps.map (fun p => (p.1 - (ps.map Prod.fst).sum / ps.length) ^ 2)).sum)

/-- `syy`, the centered second moment of the second coordinates. -/
def syyOf (ps : List (ℚ × ℚ)) : ℚ := sxxOf (ps.map Prod.swap)

/-- Centered cross moment `sxy = Σ (x - mean x) * (y - mean y)`. -/
def sxyOf (ps : List (ℚ × ℚ)) : ℚ :=
  ((ps.map
    (fun p => (p.1 - (ps.map Prod.fst).sum / ps.length) *
              (p.2 - (ps.map Prod.snd).sum / ps.length))).sum)

/-- One entry of `filtered_df[['goal','pledged','backers']].corr()`
(line 522), computed as pandas `nancorr` does with the default
`method='pearson', min_periods=1`: take the jointly observed pairs; if there
are none the entry is `NaN`; otherwise the float value is
`sxy / sqrt(sxx * syy)`, which is `NaN` (0/0) exactly when `sxx * syy = 0`
(a constant column, which also covers a single observation).
Because `sqrt(sxx * syy)` is irrational in general, a defined entry is
represented algebraically as the pair `(sxy, sxx * syy)`, standing for the
real number `sxy / sqrt(sxx * syy)`; `none` stands for `NaN`. -/
def corrOfPairs (ps : List (ℚ × ℚ)) : Option (ℚ × ℚ) :=
  if ps.length = 0 then none
  else if sxxOf ps * syyOf ps = 0 then none
  else some (sxyOf ps, sxxOf ps * syyOf ps)

/-- The correlation-matrix entry for two columns of the filtered view. -/
def corrEntry (xs ys : List (Option ℚ)) : Option (ℚ × ℚ) :=
  corrOfPairs (jointPairs xs ys)

/-- Line 521: `numerical_cols = ['goal', 'pledged', 'backers']` — column
extraction for the correlation matrix. -/
def col (i : Fin 3) (T : Table) : List (Option ℚ) :=
  match i with
  | 0 => T.map (fun r => r.goal)
  | 1 => T.map (fun r => r.pledged)
  | 2 => T.map (fun r => r.backers)

/-- Line 522: `correlation_matrix = filtered_df[numerical_cols].corr()`,
entry at row `i`, column `j`. -/
def correlation_matrix (T : Table) (i j : Fin 3) : Option (ℚ × ℚ) :=
  corrEntry (col i T) (col j T)

/-- Whether a represented entry `(num, d)` — standing for the real number
`num / sqrt d` with `d > 0` — is exactly the number 1: that holds iff
`num > 0` and `num ^ 2 = d`. -/
def reprOne (p : ℚ × ℚ) : Prop := 0 < p.1 ∧ p.1 * p.1 = p.2

/-! Concrete campaign records used as test inputs. -/

/-- A 2014 record. -/
def rA : Record := ⟨"Art", "successful", "US", some 2014, some 1, some 100, some 100, some 10⟩

/-- A 2015 record. -/
def rB : Record := ⟨"Games", "failed", "US", some 2015, some 2, some 100, some 300, some 20⟩

/-- A 2016 record. -/
def rC : Record := ⟨"Music", "canceled", "GB", some 2016, some 3, some 50, some 10, some 1⟩

/-- A second 2015 record, later in source order than `rB`. -/
def rB2 : Record := ⟨"Film", "live", "US", some 2015, some 4, some 1, some 2, some 3⟩

/-- A record whose `launched` timestamp failed to parse: null year and month. -/
def rNull : Record := ⟨"Art", "failed", "US", none, none, some 10, some 5, some 2⟩

/-- A record with goal 0 and pledged 500. -/
def rZero : Record := ⟨"Art", "failed", "US", some 2015, some 1, some 0, some 500, some 3⟩

/-- A table spanning the years 2014–2016. -/
def exTable : Table := [rA, rB, rC, rB2]

/-! Helper lemmas about the filter. -/

theorem filtered_df_ok (T : Table) (spec : FilterSpec)
    (h : (spec.years.isEmpty && spec.categories.isEmpty && spec.states.isEmpty) = false) :
    filtered_df T spec = Except.ok (T.filter (fun r => rowPass spec r)) := by
  rw [filtered_df, if_neg]
  simp [h]

theorem filtered_df_ok_inv (T : Table) (spec : FilterSpec) (V : Table)
    (h : filtered_df T spec = Except.ok V) :
    (spec.years.isEmpty && spec.categories.isEmpty && spec.states.isEmpty) = false ∧
      V = T.filter (fun r => rowPass spec r) := by
  rw [filtered_df] at h
  by_cases hb : (spec.years.isEmpty && spec.categories.isEmpty && spec.states.isEmpty) = true
  · rw [if_pos hb] at h
    exact absurd h (by simp)
  · rw [if_neg hb] at h
    exact ⟨Bool.eq_false_iff.mpr (fun hc => hb hc), (Except.ok.inj h).symm⟩

end KS

namespace KS

/-- C5: for a `FilterSpec` with at least one non-empty selection, the filter
keeps exactly the records passing each dimension's membership test (an empty
dimension is unrestrictive), combined with AND, in source order; the
2015-selection example returns exactly `[rB, rB2]`.  The all-empty
`FilterSpec` is excluded: on it the source raises (see C6). -/
theorem c5_filter_semantics :
    (∀ (T : Table) (spec : FilterSpec),
      (spec.years.isEmpty && spec.categories.isEmpty && spec.states.isEmpty) = false →
      ∃ V, filtered_df T spec = Except.ok V ∧ List.Sublist V T ∧
        (∀ r : Record, r ∈ V ↔ r ∈ T ∧ passYear spec r = true ∧
          passCategory spec r = true ∧ passState spec r = true)) ∧
    filtered_df exTable ⟨[2015], [], []⟩ = Except.ok [rB, rB2] := by
  constructor
  · intro T spec h
    refine ⟨T.filter (fun r => rowPass spec r), filtered_df_ok T spec h,
      List.filter_sublist T, ?_⟩
    intro r
    rw [List.mem_filter, rowPass]
    simp only [Bool.and_eq_true]
    tauto
  · rfl

/-- Witness for C5 at the 2015 example table and spec. -/
theorem c5_filter_semantics_witness :
    ∃ V, filtered_df exTable ⟨[2015], [], []⟩ = Except.ok V ∧ List.Sublist V exTable ∧
      (∀ r : Record, r ∈ V ↔ r ∈ exTable ∧ passYear ⟨[2015], [], []⟩ r = true ∧
        passCategory ⟨[2015], [], []⟩ r = true ∧ passState ⟨[2015], [], []⟩ r = true) :=
  c5_filter_semantics.1 exTable ⟨[2015], [], []⟩ rfl

/-- C5 counterexample: on the all-empty `FilterSpec` the claim's "no
restriction on any dimension" reading would return the full table, but the
source raises `KeyError` instead of producing any view. -/
theorem c5_counterexample :
    filtered_df exTable ⟨[], [], []⟩ ≠ Except.ok exTable := by
  rw [filtered_df]
  simp

/-- C6: lines 135–139 evaluate, for the all-empty `FilterSpec`, to
`kt_df[True & True & True] = kt_df[True]`, a column lookup with key `True`
that raises `KeyError` instead of returning the full table unchanged. -/
theorem c6_all_empty_raises :
    filtered_df exTable ⟨[], [], []⟩ = Except.error "KeyError: True" := rfl

/-- C7: the filter is idempotent — whenever one application produces a view,
applying the same `FilterSpec` to that view reproduces it exactly. -/
theorem c7_idempotent : ∀ (T : Table) (spec : FilterSpec) (V : Table),
    filtered_df T spec = Except.ok V → filtered_df V spec = Except.ok V := by
  intro T spec V h
  obtain ⟨hb, hV⟩ := filtered_df_ok_inv T spec V h
  rw [filtered_df_ok V spec hb, hV, List.filter_filter]
  congr 1
  exact List.filter_congr (fun r _ => by rw [Bool.and_self])

/-- Witness for C7 on a concrete filtered view. -/
theorem c7_idempotent_witness :
    filtered_df [rB, rB2] ⟨[2015], [], []⟩ = Except.ok [rB, rB2] :=
  c7_idempotent exTable ⟨[2015], [], []⟩ [rB, rB2] rfl

/-- C10 (amended): with a non-empty year selection every null-year record is
excluded from the view; with an empty year selection the year dimension is
unrestrictive, so a null-year record of the table is in the view exactly
when it passes the category and state selections. -/
theorem c10_null_year : ∀ (T : Table) (spec : FilterSpec) (V : Table),
    filtered_df T spec = Except.ok V →
    ((spec.years ≠ [] → ∀ r ∈ V, r.year ≠ none) ∧
     (spec.years = [] → ∀ r ∈ T, r.year = none →
        (r ∈ V ↔ passCategory spec r = true ∧ passState spec r = true))) := by
  intro T spec V h
  obtain ⟨hb, hV⟩ := filtered_df_ok_inv T spec V h
  subst hV
  constructor
  · intro hy r hr hnone
    obtain ⟨hrT, hp⟩ := List.mem_filter.mp hr
    rw [rowPass] at hp
    simp only [Bool.and_eq_true] at hp
    have h1 : (spec.years.isEmpty || false) = true := by
      have h2 := hp.1.1
      rwa [passYear, hnone] at h2
    rw [Bool.or_false] at h1
    exact hy (List.isEmpty_iff.mp h1)
  · intro hy r hrT hnone
    rw [List.mem_filter, rowPass]
    have h1 : passYear spec r = true := by
      rw [passYear, hy]
      rfl
    simp only [Bool.and_eq_true, h1]
    tauto

/-- Witness for C10: `rNull` is excluded by the year selection `[2015]`;
the surviving record `rB` has a non-null year. -/
theorem c10_null_year_witness : rB.year ≠ none :=
  (c10_null_year [rB, rNull] ⟨[2015], [], []⟩ [rB] rfl).1
    (by simp) rB (List.mem_singleton.mpr rfl)

/-- C10 counterexample: with an empty year selection a null-year record is
not necessarily retained — here the category selection removes it, so the
view is empty. -/
theorem c10_counterexample :
    (FilterSpec.mk [] ["Games"] []).years = [] ∧ rNull ∈ ([rNull] : Table) ∧
    rNull.year = none ∧
    filtered_df [rNull] ⟨[], ["Games"], []⟩ = Except.ok [] :=
  ⟨rfl, List.mem_singleton.mpr rfl, rfl, rfl⟩

/-- C1 (amended): the reported funding ratio is
`sum(pledged) / sum(goal) × 100` over the full table (`0` when the goal sum
is not positive) and does not depend on the `FilterSpec` at all — lines
103–105 compute it from `kt_df` before the filter, and line 176 displays
that value unconditionally. -/
theorem c1_funding_ratio_full_table :
    (∀ (T : Table) (s s' : FilterSpec),
      reported_funding_ratio T s = reported_funding_ratio T s') ∧
    (∀ (T : Table) (s : FilterSpec), 0 < total_goal T →
      reported_funding_ratio T s = total_pledged T / total_goal T * 100) ∧
    (∀ (T : Table) (s : FilterSpec), total_goal T = 0 →
      reported_funding_ratio T s = 0) := by
  refine ⟨fun T s s' => rfl, fun T s h => ?_, fun T s h => ?_⟩
  · rw [reported_funding_ratio, funding_ratio, if_pos h]
  · rw [reported_funding_ratio, funding_ratio, if_neg]
    rw [h]
    exact lt_irrefl 0

/-- Witness for C1 at a concrete table and two filter states. -/
theorem c1_funding_ratio_full_table_witness :
    reported_funding_ratio [rA, rB] ⟨[2015], [], []⟩ =
      reported_funding_ratio [rA, rB] ⟨[2014], [], []⟩ ∧
    reported_funding_ratio [rA, rB] ⟨[2015], [], []⟩ =
      total_pledged [rA, rB] / total_goal [rA, rB] * 100 :=
  ⟨c1_funding_ratio_full_table.1 [rA, rB] ⟨[2015], [], []⟩ ⟨[2014], [], []⟩,
   c1_funding_ratio_full_table.2.1 [rA, rB] ⟨[2015], [], []⟩
     (by norm_num [total_goal, sumOpt, rA, rB, List.filterMap_cons])⟩

/-- C1 counterexample: filtering `[rA, rB]` down to the 2015 view `[rB]`
changes the view's funding ratio (from 200 to 300), but the reported value
stays the full-table one — it is not computed over the filtered view. -/
theorem c1_counterexample :
    filtered_df [rA, rB] ⟨[2015], [], []⟩ = Except.ok [rB] ∧
    reported_funding_ratio [rA, rB] ⟨[2015], [], []⟩ ≠ funding_ratio [rB] := by
  refine ⟨rfl, ?_⟩
  rw [reported_funding_ratio]
  norm_num [funding_ratio, total_goal, total_pledged, sumOpt, rA, rB,
    List.filterMap_cons]

/-- C3: the funding ratio of a table whose goal column sums to `0` is
exactly `0` (the `else` branch of line 105), for a positive goal sum it is
`sum(pledged) / sum(goal) × 100`, and the concrete goal-0 / pledged-500
table yields `0`. -/
theorem c3_funding_ratio_zero_goal :
    (∀ T : Table, total_goal T = 0 → funding_ratio T = 0) ∧
    (∀ T : Table, 0 < total_goal T →
      funding_ratio T = total_pledged T / total_goal T * 100) ∧
    (total_goal [rZero] = 0 ∧ total_pledged [rZero] = 500 ∧
      funding_ratio [rZero] = 0) := by
  refine ⟨fun T h => ?_, fun T h => ?_, ?_, ?_, ?_⟩
  · rw [funding_ratio, if_neg]
    rw [h]
    exact lt_irrefl 0
  · rw [funding_ratio, if_pos h]
  · norm_num [total_goal, sumOpt, rZero, List.filterMap_cons]
  · norm_num [total_pledged, sumOpt, rZero, List.filterMap_cons]
  · norm_num [funding_ratio, total_goal, total_pledged, sumOpt, rZero,
      List.filterMap_cons]

/-- Witness for C3 at concrete tables with goal sum 0 and 200. -/
theorem c3_funding_ratio_zero_goal_witness :
    funding_ratio ([] : Table) = 0 ∧
    funding_ratio [rA, rB] = total_pledged [rA, rB] / total_goal [rA, rB] * 100 :=
  ⟨c3_funding_ratio_zero_goal.1 [] rfl,
   c3_funding_ratio_zero_goal.2.1 [rA, rB]
     (by norm_num [total_goal, sumOpt, rA, rB, List.filterMap_cons])⟩

/-- C8: the success rate of a non-empty group is the fraction of records in
state `successful` as a percentage, any defined success rate lies in
`[0, 100]`, and the five-record example evaluates to exactly `60`. -/
theorem c8_success_rate :
    (∀ l : List String, l ≠ [] →
      successRate l =
        some (((l.countP (fun s => s == "successful") : ℕ) : ℚ) / l.length * 100)) ∧
    (∀ (l : List String) (q : ℚ), successRate l = some q → 0 ≤ q ∧ q ≤ 100) ∧
    successRate ["successful", "successful", "failed", "canceled", "successful"] =
      some 60 := by
  refine ⟨fun l hl => ?_, fun l q hq => ?_, ?_⟩
  · rw [successRate, if_neg]
    simp [hl]
  · rw [successRate] at hq
    by_cases hl : l.isEmpty = true
    · rw [if_pos hl] at hq
      exact absurd hq (by simp)
    · rw [if_neg hl] at hq
      have hq2 := Option.some.inj hq
      have hn : 0 < (l.length : ℚ) := by
        have : l ≠ [] := fun he => hl (by rw [he]; rfl)
        have : 0 < l.length := List.length_pos.mpr this
        exact_mod_cast this
      have hc0 : (0 : ℚ) ≤ (l.countP (fun s => s == "successful") : ℚ) := by
        positivity
      have hcle : ((l.countP (fun s => s == "successful") : ℕ) : ℚ) ≤ (l.length : ℚ) := by
        exact_mod_cast List.countP_le_length _
      constructor
      · rw [← hq2]
        positivity
      · rw [← hq2]
        have h1 : ((l.countP (fun s => s == "successful") : ℕ) : ℚ) / l.length ≤ 1 :=
          (div_le_one hn).mpr hcle
        calc ((l.countP (fun s => s == "successful") : ℕ) : ℚ) / l.length * 100
            ≤ 1 * 100 := by
              exact mul_le_mul_of_nonneg_right h1 (by norm_num)
          _ = 100 := one_mul 100
  · rw [successRate]
    rw [show List.countP (fun s => s == "successful")
          ["successful", "successful", "failed", "canceled", "successful"] = 3 from by decide]
    norm_num

/-- Witness for C8 at concrete one- and five-element groups. -/
theorem c8_success_rate_witness :
    successRate ["failed"] =
      some (((List.countP (fun s => s == "successful") ["failed"] : ℕ) : ℚ) /
        (["failed"] : List String).length * 100) ∧
    (0 ≤ (60 : ℚ) ∧ (60 : ℚ) ≤ 100) :=
  ⟨c8_success_rate.1 ["failed"] (by simp),
   c8_success_rate.2.1 ["successful", "successful", "failed", "canceled", "successful"]
     60 c8_success_rate.2.2⟩

/-- C4 (amended): for every filtered view, the per-key counts of
`value_counts` sum to the number of rows whose grouping attribute is
non-null: for `state` (never null) that is the total row count, while for
`year` and `month` the null-attribute rows are dropped by `value_counts`
and do not contribute. -/
theorem c4_grouped_counts : ∀ (T : Table) (spec : FilterSpec) (V : Table),
    filtered_df T spec = Except.ok V →
    (sumCounts (state_counts V) = V.length ∧
     sumCounts (projects_per_year V) = (V.filterMap (fun r => r.year)).length ∧
     sumCounts (projects_per_month V) = (V.filterMap (fun r => r.month)).length) := by
  intro T spec V _
  refine ⟨?_, ?_, ?_⟩
  · rw [state_counts, sumCounts_valueCounts, List.length_map]
  · rw [projects_per_year, sortIndexNat, sumCounts_sortLe, sumCounts_valueCounts]
  · rw [projects_per_month, sortIndexNat, sumCounts_sortLe, sumCounts_valueCounts]

/-- Witness for C4 on the filtered view `[rB]`. -/
theorem c4_grouped_counts_witness :
    sumCounts (state_counts [rB]) = ([rB] : Table).length ∧
    sumCounts (projects_per_year [rB]) = (([rB] : Table).filterMap (fun r => r.year)).length ∧
    sumCounts (projects_per_month [rB]) = (([rB] : Table).filterMap (fun r => r.month)).length :=
  c4_grouped_counts [rA, rB] ⟨[2015], [], []⟩ [rB] rfl

/-- C4 counterexample: a filtered view holding one null-year row has year
counts summing to 0, not to the row count 1 — `value_counts` drops the null,
so the grouped count is not a partition of the view. -/
theorem c4_counterexample :
    filtered_df [rNull] ⟨[], [], ["failed"]⟩ = Except.ok [rNull] ∧
    sumCounts (projects_per_year [rNull]) = 0 ∧ ([rNull] : Table).length = 1 :=
  ⟨rfl, rfl, rfl⟩

/-! Lookup lemmas for the grouped success-rate mappings. -/

theorem lookup_map_key {β : Type} (ks : List ℕ) (v : ℕ → β) (m : ℕ) :
    (ks.map (fun k => (k, v k))).lookup m = if m ∈ ks then some (v m) else none := by
  induction ks with
  | nil => rfl
  | cons k t ih =>
    rw [List.map_cons, List.lookup]
    by_cases hmk : m = k
    · subst hmk
      rw [if_pos (List.mem_cons_self m t)]
      simp
    · have hbeq : (m == k) = false := by
        simp [hmk]
      rw [hbeq, ih]
      by_cases hmt : m ∈ t
      · rw [if_pos hmt, if_pos (List.mem_cons_of_mem k hmt)]
      · rw [if_neg hmt, if_neg (fun hc => (List.mem_cons.mp hc).elim hmk hmt)]

theorem mem_groupbyKeys (f : Record → Option ℕ) (T : Table) (m : ℕ) :
    m ∈ groupbyKeys f T ↔ ∃ r ∈ T, f r = some m := by
  rw [groupbyKeys, mem_sortLe, List.mem_dedup, List.mem_filterMap]

theorem lookup_groupSuccess (f : Record → Option ℕ) (T : Table) (m : ℕ) :
    (groupSuccess f T).lookup m ≠ none ↔ ∃ r ∈ T, f r = some m := by
  rw [groupSuccess, lookup_map_key, ← mem_groupbyKeys f T m]
  by_cases hm : m ∈ groupbyKeys f T
  · simp [hm]
  · simp [hm]

/-- C2 (amended): a group with zero members gets no entry at all in the
grouped success-rate mappings (`groupby` omits empty groups, it does not
emit a marker), and the monthly chart series of line 320 then represents
every absent month as the number `0` via `reindex(range(1, 13),
fill_value=0)` — so an empty month is rendered as 0%, indistinguishable
from a true 0% month. -/
theorem c2_empty_groups : ∀ (T : Table) (m : ℕ),
    ((monthly_success T).lookup m ≠ none ↔ ∃ r ∈ T, r.month = some m) ∧
    ((yearly_success T).lookup m ≠ none ↔ ∃ r ∈ T, r.year = some m) ∧
    (1 ≤ m → m ≤ 12 → (¬ ∃ r ∈ T, r.month = some m) →
      (m, (0 : ℚ)) ∈ reindexMonthsFill0 (monthly_success T)) := by
  intro T m
  refine ⟨lookup_groupSuccess _ T m, lookup_groupSuccess _ T m, ?_⟩
  intro h1 h2 hno
  have hnone : (monthly_success T).lookup m = none := by
    by_contra hc
    exact hno ((lookup_groupSuccess (fun r => r.month) T m).mp hc)
  rw [reindexMonthsFill0]
  refine List.mem_map.mpr ⟨m, ?_, ?_⟩
  · rw [show (List.range 13).drop 1 = [1, 2, 3, 4, 5, 6, 7, 8, 9, 10, 11, 12] from rfl]
    simp only [List.mem_cons, List.not_mem_nil, or_false]
    omega
  · rw [hnone]

/-- Witness for C2: month 5 of the empty table is an empty group and the
chart series carries `0` for it. -/
theorem c2_empty_groups_witness :
    (5, (0 : ℚ)) ∈ reindexMonthsFill0 (monthly_success ([] : Table)) :=
  (c2_empty_groups [] 5).2.2 (by norm_num) (by norm_num) (by simp)

/-- C2 counterexample: the table `[rA]` has no month-2 records, yet the
monthly chart series contains the pair `(2, 0)` — the empty group is
represented as the number `0`, not as a distinct "no data" marker. -/
theorem c2_counterexample :
    (¬ ∃ r ∈ ([rA] : Table), r.month = some 2) ∧
    (2, (0 : ℚ)) ∈ reindexMonthsFill0 (monthly_success [rA]) := by
  refine ⟨by decide, ?_⟩
  rw [reindexMonthsFill0]
  exact List.mem_map.mpr ⟨2, by decide, rfl⟩

/-! Lemmas about the correlation entries. -/

theorem jointPairs_swap (xs ys : List (Option ℚ)) :
    jointPairs ys xs = (jointPairs xs ys).map Prod.swap := by
  rw [jointPairs, jointPairs, ← List.zip_swap xs ys, List.filterMap_map,
    List.map_filterMap]
  congr 1
  funext p
  rcases p with ⟨a, b⟩
  cases a <;> cases b <;> rfl

theorem sxxOf_map_swap (ps : List (ℚ × ℚ)) : sxxOf (ps.map Prod.swap) = syyOf ps := rfl

theorem syyOf_map_swap (ps : List (ℚ × ℚ)) : syyOf (ps.map Prod.swap) = sxxOf ps := by
  rw [syyOf, List.map_map, Prod.swap_swap_eq, List.map_id]

theorem sxyOf_map_swap (ps : List (ℚ × ℚ)) : sxyOf (ps.map Prod.swap) = sxyOf ps := by
  rw [sxyOf, sxyOf]
  rw [show (ps.map Prod.swap).map Prod.fst = ps.map Prod.snd from by
    rw [List.map_map]; rfl]
  rw [show (ps.map Prod.swap).map Prod.snd = ps.map Prod.fst from by
    rw [List.map_map]; rfl]
  rw [List.length_map, List.map_map]
  congr 1
  apply List.map_congr_left
  intro p _
  rcases p with ⟨x, y⟩
  simp only [Function.comp_apply, Prod.swap_prod_mk]
  ring

theorem corrOfPairs_swap (ps : List (ℚ × ℚ)) :
    corrOfPairs (ps.map Prod.swap) = corrOfPairs ps := by
  rw [corrOfPairs, corrOfPairs, List.length_map, sxxOf_map_swap, syyOf_map_swap,
    sxyOf_map_swap, mul_comm (syyOf ps) (sxxOf ps)]

theorem corrEntry_symm (xs ys : List (Option ℚ)) : corrEntry ys xs = corrEntry xs ys := by
  rw [corrEntry, corrEntry, jointPairs_swap, corrOfPairs_swap]

theorem jointPairs_self_eq (xs : List (Option ℚ)) :
    ∀ p ∈ jointPairs xs xs, p.1 = p.2 := by
  induction xs with
  | nil => intro p hp; simp [jointPairs] at hp
  | cons a t ih =>
    intro p hp
    rw [jointPairs] at hp
    cases a with
    | none =>
      simp only [List.zip_cons_cons, List.filterMap_cons] at hp
      exact ih p hp
    | some v =>
      simp only [List.zip_cons_cons, List.filterMap_cons] at hp
      rcases List.mem_cons.mp hp with h | h
      · rw [h]
      · exact ih p h

theorem jointPairs_self_swap (xs : List (Option ℚ)) :
    (jointPairs xs xs).map Prod.swap = jointPairs xs xs := by
  have h : ∀ p ∈ jointPairs xs xs, Prod.swap p = id p := by
    intro p hp
    have h2 := jointPairs_self_eq xs p hp
    rcases p with ⟨x, y⟩
    simp only at h2
    simp [Prod.swap_prod_mk, h2]
  rw [List.map_congr_left h, List.map_id]

theorem syyOf_self (xs : List (Option ℚ)) :
    syyOf (jointPairs xs xs) = sxxOf (jointPairs xs xs) := by
  rw [syyOf, jointPairs_self_swap]

theorem sxyOf_self (xs : List (Option ℚ)) :
    sxyOf (jointPairs xs xs) = sxxOf (jointPairs xs xs) := by
  rw [sxyOf, sxxOf]
  rw [show (jointPairs xs xs).map Prod.snd = (jointPairs xs xs).map Prod.fst from
    List.map_congr_left (fun p hp => (jointPairs_self_eq xs p hp).symm)]
  apply congrArg
  apply List.map_congr_left
  intro p hp
  rw [← jointPairs_self_eq xs p hp]
  ring

theorem sxxOf_nonneg (ps : List (ℚ × ℚ)) : 0 ≤ sxxOf ps := by
  rw [sxxOf]
  apply List.sum_nonneg
  intro x hx
  obtain ⟨p, _, hpx⟩ := List.mem_map.mp hx
  rw [← hpx]
  positivity

theorem corrOfPairs_short (ps : List (ℚ × ℚ)) (h : ps.length < 2) :
    corrOfPairs ps = none := by
  match ps with
  | [] => rfl
  | [a] =>
    rw [corrOfPairs]
    have h1 : sxxOf [a] = 0 := by
      rw [sxxOf]
      norm_num
    rw [if_neg (by norm_num), h1, zero_mul, if_pos rfl]
  | a :: b :: t =>
    rw [List.length_cons, List.length_cons] at h
    omega

/-- C9 (amended): the correlation matrix over `{goal, pledged, backers}` is
symmetric; a diagonal entry is exactly 1 whenever the variable's centered
second moment over its valid observations is non-zero (which requires at
least 2 valid observations and a non-constant column); and any pair with
fewer than 2 jointly valid observations yields a null (`NaN`) entry.  The
original claim's diagonal clause needs the non-constancy hypothesis: a
constant column with 2 valid observations gives `NaN`, not 1 (see the
counterexample). -/
theorem c9_correlation :
    (∀ (T : Table) (i j : Fin 3), correlation_matrix T j i = correlation_matrix T i j) ∧
    (∀ (T : Table) (i : Fin 3), sxxOf (jointPairs (col i T) (col i T)) ≠ 0 →
      ∃ p, correlation_matrix T i i = some p ∧ reprOne p) ∧
    (∀ (T : Table) (i j : Fin 3), (jointPairs (col i T) (col j T)).length < 2 →
      correlation_matrix T i j = none) := by
  refine ⟨fun T i j => corrEntry_symm (col i T) (col j T), fun T i hs => ?_,
    fun T i j hlen => ?_⟩
  · have hne : jointPairs (col i T) (col i T) ≠ [] := by
      intro h0
      apply hs
      rw [h0]
      rfl
    have hlen0 : ¬ (jointPairs (col i T) (col i T)).length = 0 :=
      fun h0 => hne (List.length_eq_zero.mp h0)
    have hsyy := syyOf_self (col i T)
    have hsxy := sxyOf_self (col i T)
    have hprod : sxxOf (jointPairs (col i T) (col i T)) *
        syyOf (jointPairs (col i T) (col i T)) ≠ 0 := by
      rw [hsyy]
      exact mul_ne_zero hs hs
    refine ⟨(sxyOf (jointPairs (col i T) (col i T)),
      sxxOf (jointPairs (col i T) (col i T)) * syyOf (jointPairs (col i T) (col i T))),
      ?_, ?_, ?_⟩
    · rw [correlation_matrix, corrEntry, corrOfPairs, if_neg hlen0, if_neg hprod]
    · rw [hsxy]
      exact lt_of_le_of_ne (sxxOf_nonneg _) (Ne.symm hs)
    · rw [hsxy, hsyy]
  · rw [correlation_matrix, corrEntry]
    exact corrOfPairs_short _ hlen

/-- Witness for C9: on `[rA, rB]` the pledged column (100, 300) is
non-constant, so its diagonal entry is a defined value representing 1; the
empty table has fewer than 2 observations for every pair, so its entries
are null. -/
theorem c9_correlation_witness :
    (correlation_matrix [rA, rB] 1 0 = correlation_matrix [rA, rB] 0 1) ∧
    (∃ p, correlation_matrix [rA, rB] 1 1 = some p ∧ reprOne p) ∧
    correlation_matrix ([] : Table) 0 1 = none :=
  ⟨c9_correlation.1 [rA, rB] 0 1,
   c9_correlation.2.1 [rA, rB] 1 (by
     rw [show jointPairs (col 1 [rA, rB]) (col 1 [rA, rB]) =
       [((100 : ℚ), (100 : ℚ)), (300, 300)] from rfl, sxxOf]
     norm_num),
   c9_correlation.2.2 [] 0 1 (by decide)⟩

/-- C9 counterexample: the goal column of `[rA, rB]` is the constant
`[100, 100]` — 2 valid observations — yet its diagonal correlation entry is
`NaN` (`none`), not 1.0. -/
theorem c9_counterexample :
    ((col 0 [rA, rB]).filterMap id).length = 2 ∧
    correlation_matrix [rA, rB] 0 0 = none := by
  refine ⟨rfl, ?_⟩
  have hjp : jointPairs (col 0 [rA, rB]) (col 0 [rA, rB]) =
      [((100 : ℚ), (100 : ℚ)), (100, 100)] := rfl
  have hsxx : sxxOf [((100 : ℚ), (100 : ℚ)), (100, 100)] = 0 := by
    rw [sxxOf]
    norm_num
  have hsyy : syyOf [((100 : ℚ), (100 : ℚ)), (100, 100)] = 0 := hsxx
  rw [correlation_matrix, corrEntry, hjp, corrOfPairs, if_neg (by norm_num),
    if_pos (by rw [hsxx, hsyy, mul_zero])]

end KS

